import Mathlib

/-!
# A shallow embedding of the authn-server configuration pipeline and account archiver

This file embeds, over plain Lean data, the parts of the repository that the
verified properties speak about:

* the environment accessors of `app/env.go` (`requireEnv`, `lookupInt`,
  `lookupBool`, `lookupURL`, `lookupSecureURL`);
* the key-derivation function `derive` of the configuration file — PBKDF2
  HMAC-SHA-256 with 20000 iterations and a 128-byte output — together with a
  byte-level embedding of SHA-256 (FIPS 180-4), HMAC (FIPS 198-1) and PBKDF2
  (RFC 2898), mirroring Go's `crypto/sha256`, `crypto/hmac` and
  `golang.org/x/crypto/pbkdf2`;
* the configurers for `SECRET_KEY_BASE`, `DATABASE_URL`, `RSA_PRIVATE_KEY`
  and `PORT`;
* `AccountArchiver` of `services/account_archiver.go`, with the two stores as
  explicit state transformers and the sequence of store calls recorded.

The process environment is a map `String → Option String`, the file system a
map from file name to optional contents (`none` models a read error), and the
external parsers (`net/url.Parse`, `encoding/pem.Decode`,
`x509.ParsePKCS1PrivateKey`, `private.NewKey`) are oracle parameters, modelled
at their interfaces.  Machine integers are `Nat` with explicit reduction
modulo 2^32 where Go wraps.
-/

namespace AuthN

/-! ## 32-bit words and big-endian serialization -/

/-- Reduce to a 32-bit word, the wrap-around of Go's `uint32` arithmetic. -/
def w32 (x : Nat) : Nat := x % 4294967296

/-- Right rotation of a 32-bit word by `n` places. -/
def rotr32 (n x : Nat) : Nat := ((x >>> n) ||| (x <<< (32 - n))) % 4294967296

/-- Big-endian bytes of a 32-bit word, as written by `binary.BigEndian.PutUint32`. -/
def be4 (x : Nat) : List Nat :=
  [(x >>> 24) % 256, (x >>> 16) % 256, (x >>> 8) % 256, x % 256]

/-- Big-endian bytes of a 64-bit word, used for the SHA-256 length field. -/
def be8 (x : Nat) : List Nat :=
  [(x >>> 56) % 256, (x >>> 48) % 256, (x >>> 40) % 256, (x >>> 32) % 256,
   (x >>> 24) % 256, (x >>> 16) % 256, (x >>> 8) % 256, x % 256]

/-! ## SHA-256 (FIPS 180-4), the hash underlying `sha256.New` -/

/-- The 64 SHA-256 round constants (FIPS 180-4 section 4.2.2, in decimal). -/
def sha256K : List Nat :=
  [1116352408, 1899447441, 3049323471, 3921009573, 961987163, 1508970993,
   2453635748, 2870763221, 3624381080, 310598401, 607225278, 1426881987,
   1925078388, 2162078206, 2614888103, 3248222580, 3835390401, 4022224774,
   264347078, 604807628, 770255983, 1249150122, 1555081692, 1996064986,
   2554220882, 2821834349, 2952996808, 3210313671, 3336571891, 3584528711,
   113926993, 338241895, 666307205, 773529912, 1294757372, 1396182291,
   1695183700, 1986661051, 2177026350, 2456956037, 2730485921, 2820302411,
   3259730800, 3345764771, 3516065817, 3600352804, 4094571909, 275423344,
   430227734, 506948616, 659060556, 883997877, 958139571, 1322822218,
   1537002063, 1747873779, 1955562222, 2024104815, 2227730452, 2361852424,
   2428436474, 2756734187, 3204031479, 3329325298]

/-- The eight working variables of the SHA-256 compression function. -/
structure Sha256State where
  a : Nat
  b : Nat
  c : Nat
  d : Nat
  e : Nat
  f : Nat
  g : Nat
  h : Nat
deriving Repr, DecidableEq

/-- The SHA-256 initial hash value (FIPS 180-4 section 5.3.3, in decimal). -/
def sha256Init : Sha256State :=
  ⟨1779033703, 3144134277, 1013904242, 2773480762,
   1359893119, 2600822924, 528734635, 1541459225⟩

/-- SHA-256 `Ch(e, f, g)`; `NOT` on 32 bits is xor with `0xffffffff`. -/
def chF (e f g : Nat) : Nat := (e &&& f) ^^^ ((e ^^^ 4294967295) &&& g)

/-- SHA-256 `Maj(a, b, c)`. -/
def majF (a b c : Nat) : Nat := (a &&& b) ^^^ (a &&& c) ^^^ (b &&& c)

/-- SHA-256 `Σ0`. -/
def bsig0 (x : Nat) : Nat := rotr32 2 x ^^^ rotr32 13 x ^^^ rotr32 22 x

/-- SHA-256 `Σ1`. -/
def bsig1 (x : Nat) : Nat := rotr32 6 x ^^^ rotr32 11 x ^^^ rotr32 25 x

/-- SHA-256 `σ0`. -/
def ssig0 (x : Nat) : Nat := rotr32 7 x ^^^ rotr32 18 x ^^^ (x >>> 3)

/-- SHA-256 `σ1`. -/
def ssig1 (x : Nat) : Nat := rotr32 17 x ^^^ rotr32 19 x ^^^ (x >>> 10)

/-- The first 16 message-schedule words of one 64-byte block, big-endian. -/
def toWords (block : List Nat) : List Nat :=
  (List.range 16).map fun i =>
    (block.getD (4 * i) 0) <<< 24 + (block.getD (4 * i + 1) 0) <<< 16 +
    (block.getD (4 * i + 2) 0) <<< 8 + block.getD (4 * i + 3) 0

/-- Extend 16 schedule words to 64. -/
def schedule (w16 : List Nat) : List Nat :=
  (List.range 48).foldl
    (fun w _ =>
      w ++ [w32 (ssig1 (w.getD (w.length - 2) 0) + w.getD (w.length - 7) 0 +
                 ssig0 (w.getD (w.length - 15) 0) + w.getD (w.length - 16) 0)])
    w16

/-- One SHA-256 round, consuming a pair of round constant and schedule word. -/
def sha256Round (st : Sha256State) (kw : Nat × Nat) : Sha256State :=
  let t1 := w32 (st.h + bsig1 st.e + chF st.e st.f st.g + kw.1 + kw.2)
  let t2 := w32 (bsig0 st.a + majF st.a st.b st.c)
  ⟨w32 (t1 + t2), st.a, st.b, st.c, w32 (st.d + t1), st.e, st.f, st.g⟩

/-- Compress one 64-byte block into the running state. -/
def sha256Compress (st : Sha256State) (block : List Nat) : Sha256State :=
  let r := (sha256K.zip (schedule (toWords block))).foldl sha256Round st
  ⟨w32 (st.a + r.a), w32 (st.b + r.b), w32 (st.c + r.c), w32 (st.d + r.d),
   w32 (st.e + r.e), w32 (st.f + r.f), w32 (st.g + r.g), w32 (st.h + r.h)⟩

/-- SHA-256 padding: a 0x80 byte, zeros to 56 mod 64, and the bit length big-endian. -/
def sha256Pad (msg : List Nat) : List Nat :=
  msg ++ 128 :: List.replicate ((119 - msg.length % 64) % 64) 0 ++ be8 (8 * msg.length)

/-- Split a byte list into its 64-byte blocks. -/
def chunks64 (l : List Nat) : List (List Nat) :=
  (List.range ((l.length + 63) / 64)).map fun i => (l.drop (64 * i)).take 64

/-- SHA-256 of a byte sequence, as the 32 digest bytes. -/
def sha256 (msg : List Nat) : List Nat :=
  let st := (chunks64 (sha256Pad msg)).foldl sha256Compress sha256Init
  be4 st.a ++ be4 st.b ++ be4 st.c ++ be4 st.d ++ be4 st.e ++ be4 st.f ++ be4 st.g ++ be4 st.h

/-! ## HMAC-SHA-256 (FIPS 198-1), the PRF built by `hmac.New(sha256.New, password)` -/

/-- HMAC-SHA-256 with block size 64: hash keys longer than a block, zero-pad to
the block, and hash over the two xor pads. -/
def hmacSha256 (key msg : List Nat) : List Nat :=
  let k1 := if 64 < key.length then sha256 key else key
  let k0 := k1 ++ List.replicate (64 - k1.length) 0
  sha256 ((k0.map fun b => b ^^^ 92) ++ sha256 ((k0.map fun b => b ^^^ 54) ++ msg))

/-! ## PBKDF2 (RFC 2898), mirroring `golang.org/x/crypto/pbkdf2.Key` -/

/-- The xor-accumulation loop of one PBKDF2 block: from `(T, U)` run `n` more
PRF iterations, xoring each `U` into `T` — the `for n := 2; n <= iter` loop of
`pbkdf2.Key`. -/
def pbkdf2Iter (password : List Nat) : Nat → List Nat × List Nat → List Nat × List Nat
  | 0, tu => tu
  | n + 1, tu =>
    let u := hmacSha256 password tu.2
    pbkdf2Iter password n (List.zipWith (fun a b => a ^^^ b) tu.1 u, u)

/-- One PBKDF2 output block `T_i`: `U_1 = PRF(salt ‖ INT(i))`, then `iter - 1`
further PRF iterations xored together. -/
def pbkdf2Block (password salt : List Nat) (iter blockIdx : Nat) : List Nat :=
  let u1 := hmacSha256 password (salt ++ be4 blockIdx)
  (pbkdf2Iter password (iter - 1) (u1, u1)).1

/-- PBKDF2 with HMAC-SHA-256: concatenate `⌈keyLen/32⌉` blocks, numbered from 1,
and keep the first `keyLen` bytes — `pbkdf2.Key` specialized to `sha256.New`. -/
def pbkdf2Key (password salt : List Nat) (iter keyLen : Nat) : List Nat :=
  (((List.range ((keyLen + 31) / 32)).map
      fun b => pbkdf2Block password salt iter (b + 1)).flatten).take keyLen

/-- UTF-8 bytes of a string, Go's `[]byte(s)`. -/
def strBytes (s : String) : List Nat := s.toUTF8.data.toList.map fun b => b.toNat

/-- The repository's key derivation (config.go `derive`): 20000 iterations
(the Go literal `2e4`) of PBKDF2 HMAC-SHA-256, 128 output bytes, the salt the
UTF-8 bytes of the label. -/
def derive (base : List Nat) (salt : String) : List Nat :=
  pbkdf2Key base (strBytes salt) 20000 128

/-! ## The environment, the file system, and the external URL parser -/

/-- The process environment: `os.LookupEnv` as a map from name to optional value. -/
def Env : Type := String → Option String

/-- The file system seen by `ioutil.ReadFile`: `none` models a read error. -/
def FS : Type := String → Option String

/-- The component of `net/url.URL` this subsystem consumes: `Scheme`, `Host`,
the `Port()` accessor's result (empty when the authority has no explicit
port), and `Path`.  `net/url` is an external collaborator, modelled at this
interface. -/
structure URL where
  scheme : String
  host : String
  port : String
  path : String
deriving Repr, DecidableEq

/-- An oracle for `url.Parse`: Go returns a nil `*URL` exactly when it errors. -/
def URLParser : Type := String → Except String URL

/-- The errors produced by the embedded steps: `ErrMissingEnvVar` (env.go),
read failures of `ioutil.ReadFile`, and parse errors surfaced by `strconv`,
`net/url` or `x509`. -/
inductive ConfigError where
  | missingEnvVar (name : String)
  | ioError (fileName : String)
  | parseError (msg : String)
deriving Repr, DecidableEq

/-- The `Error()` message of env.go's error values; `ErrMissingEnvVar.Error`
is the concatenation on its line 14. -/
def configErrorMessage : ConfigError → String
  | .missingEnvVar name => "missing environment variable: " ++ name
  | .ioError fileName => "open " ++ fileName ++ ": no such file or directory"
  | .parseError msg => msg

/-! ## The environment accessors of app/env.go -/

/-- env.go `requireEnv`: the value when present, `ErrMissingEnvVar(name)` when absent. -/
def requireEnv (env : Env) (name : String) : Except ConfigError String :=
  match env name with
  | some val => .ok val
  | none => .error (.missingEnvVar name)

/-- Decimal digit value of a character. -/
def digitVal (c : Char) : Option Nat :=
  if 48 ≤ c.toNat ∧ c.toNat ≤ 57 then some (c.toNat - 48) else none

/-- Base-10 value of a nonempty all-digit character list, else `none`. -/
def digitsVal (l : List Char) : Option Nat :=
  match l with
  | [] => none
  | _ => l.foldl
      (fun acc c =>
        match acc, digitVal c with
        | some a, some d => some (10 * a + d)
        | _, _ => none)
      (some 0)

/-- Go `strconv.Atoi`, as the pair Go returns: an optional leading sign then
decimal digits; on a syntax error the returned int is 0 alongside the error.
(The 64-bit range error is not modelled; `Int` is unbounded here.) -/
def atoi (s : String) : Int × Option ConfigError :=
  match
    (match s.data with
     | '+' :: rest => (digitsVal rest).map fun n => (n : Int)
     | '-' :: rest => (digitsVal rest).map fun n => -(n : Int)
     | l => (digitsVal l).map fun n => (n : Int))
  with
  | some n => (n, none)
  | none => (0, some (.parseError ("strconv.Atoi: parsing " ++ s ++ ": invalid syntax")))

/-- env.go `lookupInt`: `strconv.Atoi` of the value when present, the default
with no error when absent. -/
def lookupInt (env : Env) (name : String) (def_ : Int) : Int × Option ConfigError :=
  match env name with
  | some val => atoi val
  | none => (def_, none)

/-- ASCII lower-casing of one character. -/
def asciiLower (c : Char) : Char :=
  if 65 ≤ c.toNat ∧ c.toNat ≤ 90 then Char.ofNat (c.toNat + 32) else c

/-- ASCII lower-casing of a string. -/
def lowerStr (s : String) : String := String.mk (s.data.map asciiLower)

/-- The anchored case-insensitive pattern of env.go line 35,
regexp.MatchString of the constant and valid pattern for t, true or yes:
a whole-string case-insensitive match of one of the three alternatives. -/
def matchTruthy (val : String) : Bool :=
  lowerStr val = "t" || lowerStr val = "true" || lowerStr val = "yes"

/-- env.go `lookupBool`: the truthy-pattern match when present (MatchString
never errors on this constant pattern), the default when absent. -/
def lookupBool (env : Env) (name : String) (def_ : Bool) : Bool × Option ConfigError :=
  match env name with
  | some val => (matchTruthy val, none)
  | none => (def_, none)

/-- env.go `lookupURL`: parse when present (Go's `url.Parse` returns a nil URL
exactly on error), `(nil, nil)` when absent. -/
def lookupURL (env : Env) (parse : URLParser) (name : String) :
    Option URL × Option ConfigError :=
  match env name with
  | some val =>
    match parse val with
    | .ok u => (some u, none)
    | .error e => (none, some (.parseError e))
  | none => (none, none)

/-- env.go `lookupSecureURL`: the variable holds a file name; read the file and
parse its contents.  Absence of the variable is `(nil, nil)`; a failed read or
parse is `(nil, err)`. -/
def lookupSecureURL (env : Env) (fs : FS) (parse : URLParser) (name : String) :
    Option URL × Option ConfigError :=
  match env name with
  | some fileName =>
    match fs fileName with
    | some contents =>
      match parse contents with
      | .ok u => (some u, none)
      | .error e => (none, some (.parseError e))
    | none => (none, some (.ioError fileName))
  | none => (none, none)

/-! ## The configuration record and the embedded configurers -/

/-- A PEM block as returned by `encoding/pem.Decode`, reduced to the `Bytes`
field the code dereferences. -/
structure PemBlock where
  Bytes : List Nat
deriving Repr, DecidableEq

/-- An `rsa.PrivateKey` as produced by `x509.ParsePKCS1PrivateKey` — external,
opaque here beyond its identity. -/
structure RSAKey where
  raw : List Nat
deriving Repr, DecidableEq

/-- A `private.Key` as produced by `private.NewKey` — external, opaque here
beyond its identity. -/
structure PrivateKey where
  raw : List Nat
deriving Repr, DecidableEq

/-- An oracle for `pem.Decode`: Go returns a nil block exactly when no PEM
block is found.  The `rest` return is unused by the code and omitted. -/
def PemDecoder : Type := String → Option PemBlock

/-- An oracle for `x509.ParsePKCS1PrivateKey`. -/
def PKCS1Parser : Type := List Nat → Except String RSAKey

/-- An oracle for `private.NewKey`. -/
def KeyWrapper : Type := RSAKey → Except String PrivateKey

/-- The fields of config.go's `Config` that the embedded configurers read or
write.  Pointer-typed Go fields are `Option`; the remaining fields of the Go
struct are untouched by these steps and omitted. -/
structure Config where
  PasswordlessTokenSigningKey : List Nat
  DatabaseURL : Option URL
  SessionSigningKey : List Nat
  ResetSigningKey : List Nat
  DBEncryptionKey : List Nat
  OAuthSigningKey : List Nat
  IdentitySigningKey : Option PrivateKey
  AuthNURL : Option URL
  ServerPort : Int
deriving Repr, DecidableEq

/-- The Go zero value of the (restricted) `Config` struct, the record a fresh
pipeline run starts from. -/
def emptyConfig : Config :=
  { PasswordlessTokenSigningKey := []
    DatabaseURL := none
    SessionSigningKey := []
    ResetSigningKey := []
    DBEncryptionKey := []
    OAuthSigningKey := []
    IdentitySigningKey := none
    AuthNURL := none
    ServerPort := 0 }

/-- The outcome of one configurer: the mutated record with a nil error, a
non-nil error, or a runtime panic (nil-pointer dereference). -/
inductive StepResult where
  | ok (c : Config)
  | fail (e : ConfigError)
  | panics
deriving Repr, DecidableEq

/-- Whether a step returned a non-nil error. -/
def isFail : StepResult → Bool
  | .fail _ => true
  | _ => false

/-- The `SECRET_KEY_BASE` configurer (config.go lines 122–147): require
`SECRET_KEY_BASE_FILE`; when that variable is absent, log and fall back to
requiring `SECRET_KEY_BASE`; when it is present, read the named file, a read
failure being returned with no fallback.  From the obtained base the five keys
are derived with their fixed labels, the database-encryption key truncated to
32 bytes. -/
def secretKeyBaseConfigurer (env : Env) (fs : FS) (c : Config) : StepResult :=
  match requireEnv env "SECRET_KEY_BASE_FILE" with
  | .error _ =>
    match requireEnv env "SECRET_KEY_BASE" with
    | .error e => .fail e
    | .ok val =>
      .ok { c with
            SessionSigningKey := derive (strBytes val) "session-key-salt"
            ResetSigningKey := derive (strBytes val) "password-reset-token-key-salt"
            PasswordlessTokenSigningKey := derive (strBytes val) "passwordless-token-key-salt"
            DBEncryptionKey := (derive (strBytes val) "db-encryption-key-salt").take 32
            OAuthSigningKey := derive (strBytes val) "oauth-key-salt" }
  | .ok fileName =>
    match fs fileName with
    | none => .fail (.ioError fileName)
    | some val =>
      .ok { c with
            SessionSigningKey := derive (strBytes val) "session-key-salt"
            ResetSigningKey := derive (strBytes val) "password-reset-token-key-salt"
            PasswordlessTokenSigningKey := derive (strBytes val) "passwordless-token-key-salt"
            DBEncryptionKey := (derive (strBytes val) "db-encryption-key-salt").take 32
            OAuthSigningKey := derive (strBytes val) "oauth-key-salt" }

/-- The `DATABASE_URL` configurer (config.go lines 191–207).  The outer lookup
of `DATABASE_URL_FILE` errors only when the variable is present but the read
or parse fails; only then does the fallback to `DATABASE_URL` run.  The inner
`val, err :=` shadows both names, so when the fallback itself errors control
falls through to the final assignment of the still-nil outer `val`. -/
def databaseConfigurer (env : Env) (fs : FS) (parse : URLParser) (c : Config) : StepResult :=
  let ve := lookupSecureURL env fs parse "DATABASE_URL_FILE"
  match ve.2 with
  | some _ =>
    let ve2 := lookupURL env parse "DATABASE_URL"
    match ve2.2 with
    | none =>
      match ve2.1 with
      | none => .fail (.missingEnvVar "DATABASE_URL")
      | some u => .ok { c with DatabaseURL := some u }
    | some _ => .ok { c with DatabaseURL := ve.1 }
  | none => .ok { c with DatabaseURL := ve.1 }

/-- Go `strings.Replace(s, "\x5cn", "\n", -1)` at the `RSA_PRIVATE_KEY` call
site: every literal backslash-n pair becomes a newline, left to right. -/
def unescapeNewlines : List Char → List Char
  | '\\' :: 'n' :: rest => '\n' :: unescapeNewlines rest
  | c :: rest => c :: unescapeNewlines rest
  | [] => []

/-- The `RSA_PRIVATE_KEY` configurer (config.go lines 384–398): when the
variable is present, normalize the newline escapes, `pem.Decode` the result —
the error return is discarded, and a nil block makes the following
`block.Bytes` a nil-pointer dereference — then parse the key material,
returning parse and wrap errors. -/
def rsaConfigurer (env : Env) (pemDecode : PemDecoder) (parseKey : PKCS1Parser)
    (newKey : KeyWrapper) (c : Config) : StepResult :=
  match env "RSA_PRIVATE_KEY" with
  | none => .ok c
  | some str =>
    match pemDecode (String.mk (unescapeNewlines str.data)) with
    | none => .panics
    | some block =>
      match parseKey block.Bytes with
      | .error e => .fail (.parseError e)
      | .ok key =>
        match newKey key with
        | .error e => .fail (.parseError e)
        | .ok k => .ok { c with IdentitySigningKey := some k }

/-- The `PORT` configurer (config.go lines 458–465).  `strconv.Atoi` of
`c.AuthNURL.Port()` binds `defaultPort` and `err`; the very next
`val, err := lookupInt("PORT", defaultPort)` reassigns `err`, discarding the
`Atoi` error, and only the second `err` is tested and returned.  A nil
`AuthNURL` would be a nil-pointer dereference. -/
def portConfigurer (env : Env) (c : Config) : StepResult :=
  match c.AuthNURL with
  | none => .panics
  | some u =>
    let dp := atoi u.port
    let ve := lookupInt env "PORT" dp.1
    match ve.2 with
    | none => .ok { c with ServerPort := ve.1 }
    | some e => .fail e

/-! ## AccountArchiver (services/account_archiver.go)

The two stores are external collaborators behind the `data.AccountStore` and
`data.RefreshTokenStore` interfaces; they are embedded as explicit state
transformers over caller-chosen state types, and the archiver's run records
the sequence of store calls it makes. -/

/-- One call against one of the two stores. -/
inductive StoreOp where
  | archiveCall (accountID : Int)
  | logoutCall (accountID : Int)
deriving Repr, DecidableEq

/-- The `data.AccountStore` interface, restricted to the `Archive` call the
archiver makes: it transforms the store state and reports whether a row was
affected, or fails. -/
structure AccountStore (σ ε : Type) where
  Archive : Int → σ → σ × Except ε Bool

/-- The `data.RefreshTokenStore` interface, restricted to the bulk revocation
the logout path performs. -/
structure RefreshTokenStore (σ ε : Type) where
  revokeAll : Int → σ → σ × Except ε Unit

/-- The error an `AccountArchiver` call returns, constructor-tagged the way the
Go values are distinguishable: `errors.Wrap(err, "Archive")`, the
`FieldErrors{{"account", ErrNotFound}}` value with its field tag, or the error
from `LogoutAccount`. -/
inductive ArchiverResult (ε : Type) where
  | success
  | wrappedArchiveErr (cause : ε)
  | notFoundFieldError (field : String)
  | revocationErr (cause : ε)
deriving Repr, DecidableEq

/-- The observable outcome of one archiver run: both final store states, the
ordered list of store calls made, and the returned value. -/
structure ArchiveRun (σa σt ε : Type) where
  accountState : σa
  tokenState : σt
  ops : List StoreOp
  result : ArchiverResult ε

/-- Modelled from the spec: `LogoutAccount` (a services function outside the
excerpt) performs the token store's bulk revocation of every refresh token of
the account, returning the store's error on failure. -/
def LogoutAccount (tokenStore : RefreshTokenStore σt ε) (accountID : Int) (st : σt) :
    σt × Except ε Unit :=
  tokenStore.revokeAll accountID st

/-- services/account_archiver.go `AccountArchiver`: archive the account; a
store error is wrapped with "Archive"; an unaffected row is the
account-tagged not-found field error, with the token store untouched; an
affected row is followed by `LogoutAccount`, whose result is returned. -/
def AccountArchiver (store : AccountStore σa ε) (tokenStore : RefreshTokenStore σt ε)
    (accountID : Int) (sa : σa) (st : σt) : ArchiveRun σa σt ε :=
  let ar := store.Archive accountID sa
  match ar.2 with
  | .error e => ⟨ar.1, st, [.archiveCall accountID], .wrappedArchiveErr e⟩
  | .ok affected =>
    if !affected then
      ⟨ar.1, st, [.archiveCall accountID], .notFoundFieldError "account"⟩
    else
      let lr := LogoutAccount tokenStore accountID st
      match lr.2 with
      | .error e =>
        ⟨ar.1, lr.1, [.archiveCall accountID, .logoutCall accountID], .revocationErr e⟩
      | .ok _ =>
        ⟨ar.1, lr.1, [.archiveCall accountID, .logoutCall accountID], .success⟩

/-! ## Concrete fixtures for the facts proved below -/

/-- The empty process environment. -/
def noEnv : Env := fun _ => none

/-- An issuer URL with no explicit port, as parsed from
AUTHN_URL=https://app.example.com — `Port()` is the empty string. -/
def issuerNoPort : URL :=
  { scheme := "https", host := "app.example.com", port := "", path := "" }

/-- The record state reaching the PORT configurer when the issuer URL carries
no explicit port. -/
def configAfterIssuer : Config := { emptyConfig with AuthNURL := some issuerNoPort }

/-- An environment holding both secret-base variables, with the indirection
naming a file the file system cannot read. -/
def cexEnv : Env := fun n =>
  if n = "SECRET_KEY_BASE_FILE" then some "/run/secrets/key_base"
  else if n = "SECRET_KEY_BASE" then some "itsasecret" else none

/-- A file system on which every read fails. -/
def cexFS : FS := fun _ => none

/-- An environment holding only RSA_PRIVATE_KEY, set to text without any PEM
block. -/
def envRSA : Env := fun n => if n = "RSA_PRIVATE_KEY" then some "not a pem" else none

/-- A `pem.Decode` oracle finding no PEM block, the nil return for input that
is not valid PEM. -/
def noPemDecoder : PemDecoder := fun _ => none

/-- A `pem.Decode` oracle returning a block whose bytes are not key material. -/
def junkBlockDecoder : PemDecoder := fun _ => some ⟨[48]⟩

/-- An `x509.ParsePKCS1PrivateKey` oracle rejecting its input. -/
def rejectKeyParser : PKCS1Parser := fun _ => .error "x509: failed to parse private key"

/-- A `private.NewKey` oracle accepting its input. -/
def acceptKeyWrapper : KeyWrapper := fun k => .ok ⟨k.raw⟩

/-- An environment with FLAG set to the literal word false. -/
def envFlagFalse : Env := fun n => if n = "FLAG" then some "false" else none

/-- An account store whose Archive call always reports no row affected. -/
def storeNoRow : AccountStore Nat String := ⟨fun _ s => (s + 1, .ok false)⟩

/-- An account store whose Archive call always succeeds and affects a row. -/
def storeAffects : AccountStore Nat String := ⟨fun _ s => (s + 1, .ok true)⟩

/-- A refresh-token store whose bulk revocation succeeds. -/
def tokensOK : RefreshTokenStore Nat String := ⟨fun _ s => (s + 1, .ok ())⟩

/-- A refresh-token store whose bulk revocation fails. -/
def tokensFail : RefreshTokenStore Nat String := ⟨fun _ s => (s, .error "redis: connection refused")⟩

/-- Holds of a step result when it is a successful return whose record
satisfies the predicate; vacuous on the other outcomes. -/
def onOk (r : StepResult) (P : Config → Prop) : Prop :=
  match r with
  | .ok c => P c
  | _ => True

/-! ## Library facts: SHA-256, HMAC and PBKDF2 output lengths -/

/-- A SHA-256 digest is exactly 32 bytes. -/
theorem sha256_length (msg : List Nat) : (sha256 msg).length = 32 := by
  simp [sha256, be4]

/-- An HMAC-SHA-256 tag is exactly 32 bytes. -/
theorem hmacSha256_length (key msg : List Nat) : (hmacSha256 key msg).length = 32 :=
  sha256_length _

/-- The xor-accumulation loop preserves a 32-byte accumulator. -/
theorem pbkdf2Iter_fst_length (password : List Nat) :
    ∀ (n : Nat) (tu : List Nat × List Nat), tu.1.length = 32 →
      (pbkdf2Iter password n tu).1.length = 32 := by
  intro n
  induction n with
  | zero => intro tu htu; simpa [pbkdf2Iter] using htu
  | succ m ih =>
    intro tu htu
    simp only [pbkdf2Iter]
    exact ih _ (by simp [htu, hmacSha256_length])

/-- Every PBKDF2 block is 32 bytes. -/
theorem pbkdf2Block_length (password salt : List Nat) (iter blockIdx : Nat) :
    (pbkdf2Block password salt iter blockIdx).length = 32 :=
  pbkdf2Iter_fst_length password _ _ (hmacSha256_length _ _)

/-- A 128-byte PBKDF2 request yields exactly 128 bytes. -/
theorem pbkdf2Key_length_128 (password salt : List Nat) (iter : Nat) :
    (pbkdf2Key password salt iter 128).length = 128 := by
  simp [pbkdf2Key, List.range_succ, pbkdf2Block_length]

/-- The repository's `derive` always returns exactly 128 bytes. -/
theorem derive_length (base : List Nat) (salt : String) :
    (derive base salt).length = 128 :=
  pbkdf2Key_length_128 _ _ _

/-- The repository's `derive` never returns the empty byte sequence. -/
theorem derive_ne_nil (base : List Nat) (salt : String) : derive base salt ≠ [] := by
  intro hnil
  have h := derive_length base salt
  rw [hnil] at h
  simp at h

/-! ## The claims -/

/-- C1: with the issuer URL carrying no explicit port and PORT unset, the
PORT configurer does not fail: the Atoi error on the empty port string is
overwritten by the nil error of the defaulting lookup, and the step returns
success with ServerPort silently set to 0 (Atoi's value on a syntax error) —
against the claim that the step surfaces an error. -/
theorem portConfigurer_missing_port_silently_zero :
    issuerNoPort.port = "" ∧ noEnv "PORT" = none ∧
    portConfigurer noEnv configAfterIssuer = .ok { configAfterIssuer with ServerPort := 0 } :=
  ⟨rfl, rfl, rfl⟩

/-- C2: with DATABASE_URL_FILE and DATABASE_URL both absent, the database
configurer succeeds and leaves DatabaseURL nil, for every file system, URL
parser and incoming record: the secure lookup reports no error on an absent
indirection variable, so the required-variable fallback never runs — against
the claim that absence of both sources is an error. -/
theorem databaseConfigurer_both_absent_succeeds_nil (fs : FS) (parse : URLParser) (c : Config) :
    databaseConfigurer noEnv fs parse c = .ok { c with DatabaseURL := none } :=
  rfl

/-- C7: the escape normalization does happen and the parse-error branch does
return an error, but a present RSA_PRIVATE_KEY value containing no PEM block
makes the configurer dereference the nil block — a panic, not the claimed
fatal error return. -/
theorem rsaConfigurer_invalid_pem_panics :
    unescapeNewlines ('-' :: '\\' :: 'n' :: 'X' :: []) = '-' :: '\n' :: 'X' :: [] ∧
    rsaConfigurer envRSA junkBlockDecoder rejectKeyParser acceptKeyWrapper emptyConfig =
      .fail (.parseError "x509: failed to parse private key") ∧
    envRSA "RSA_PRIVATE_KEY" = some "not a pem" ∧
    rsaConfigurer envRSA noPemDecoder rejectKeyParser acceptKeyWrapper emptyConfig = .panics :=
  ⟨rfl, rfl, rfl, rfl⟩

/-- C9: requireEnv on an absent variable fails with the ErrMissingEnvVar value
carrying exactly that name, whose message is the name after the fixed
prefix. -/
theorem requireEnv_missing_names_variable (env : Env) (name : String)
    (h : env name = none) :
    requireEnv env name = .error (.missingEnvVar name) ∧
    configErrorMessage (.missingEnvVar name) = "missing environment variable: " ++ name := by
  constructor
  · simp [requireEnv, h]
  · rfl

/-- Witness for C9 at the concrete variable APP_DOMAINS in the empty
environment. -/
theorem requireEnv_missing_names_variable_witness :
    noEnv "APP_DOMAINS" = none ∧
    requireEnv noEnv "APP_DOMAINS" = .error (.missingEnvVar "APP_DOMAINS") ∧
    configErrorMessage (.missingEnvVar "APP_DOMAINS") =
      "missing environment variable: APP_DOMAINS" := by
  refine ⟨rfl, ?_⟩
  exact requireEnv_missing_names_variable noEnv "APP_DOMAINS" rfl

/-- C8: lookupBool on a present value returns, with a nil error, exactly the
truthy-pattern match — true iff the ASCII-lowercased value is t, true or yes;
on an absent variable it returns the default; it never returns an error; and
the literal word false does not match the truthy pattern. -/
theorem lookupBool_truthy_characterization (env : Env) (name : String) (d : Bool) :
    (∀ val, env name = some val →
      lookupBool env name d = (matchTruthy val, none) ∧
      (matchTruthy val = true ↔
        (lowerStr val = "t" ∨ lowerStr val = "true" ∨ lowerStr val = "yes"))) ∧
    (env name = none → lookupBool env name d = (d, none)) ∧
    (lookupBool env name d).2 = none ∧
    matchTruthy "false" = false := by
  refine ⟨fun val h => ⟨by simp [lookupBool, h], ?_⟩, fun h => by simp [lookupBool, h],
    ?_, by decide⟩
  · simp [matchTruthy]; tauto
  · cases h : env name <;> simp [lookupBool, h]

/-- Witness for C8 at the concrete environment where FLAG holds the literal
word false: the lookup yields false with no error, the same outcome as the
unset default. -/
theorem lookupBool_truthy_characterization_witness :
    envFlagFalse "FLAG" = some "false" ∧
    lookupBool envFlagFalse "FLAG" false = (false, none) ∧
    lookupBool noEnv "FLAG" false = (false, none) := by
  have h := (lookupBool_truthy_characterization envFlagFalse "FLAG" false).1 "false" rfl
  have h2 := (lookupBool_truthy_characterization noEnv "FLAG" false).2.1 rfl
  exact ⟨rfl, by simpa using h.1, h2⟩

/-- C4: whenever the account store's Archive call reports no affected row and
no error, the archiver returns the not-found field error tagged account, the
only store call made is the archive call, and the token-store state is
untouched. -/
theorem accountArchiver_notFound_no_token_ops {σa σt ε : Type}
    (store : AccountStore σa ε) (tokenStore : RefreshTokenStore σt ε)
    (accountID : Int) (sa : σa) (st : σt)
    (h : (store.Archive accountID sa).2 = .ok false) :
    (AccountArchiver store tokenStore accountID sa st).result = .notFoundFieldError "account" ∧
    (AccountArchiver store tokenStore accountID sa st).ops = [.archiveCall accountID] ∧
    (AccountArchiver store tokenStore accountID sa st).tokenState = st := by
  simp [AccountArchiver, h]

/-- Witness for C4 at a concrete store reporting no affected row. -/
theorem accountArchiver_notFound_no_token_ops_witness :
    (storeNoRow.Archive 7 0).2 = .ok false ∧
    (AccountArchiver storeNoRow tokensOK 7 0 5).result = .notFoundFieldError "account" ∧
    (AccountArchiver storeNoRow tokensOK 7 0 5).ops = [.archiveCall 7] ∧
    (AccountArchiver storeNoRow tokensOK 7 0 5).tokenState = 5 := by
  refine ⟨rfl, ?_⟩
  exact accountArchiver_notFound_no_token_ops storeNoRow tokensOK 7 0 5 rfl

/-- C5: the archiver returns success exactly when the archive call succeeds
with a row affected and the bulk revocation succeeds; on success both calls
were made, archive first; and when the revocation fails after a successful
archive, the archiver returns that error while the account-store state keeps
the value the archive call produced — no rollback. -/
theorem accountArchiver_success_iff_both_succeed {σa σt ε : Type}
    (store : AccountStore σa ε) (tokenStore : RefreshTokenStore σt ε)
    (accountID : Int) (sa : σa) (st : σt) :
    ((AccountArchiver store tokenStore accountID sa st).result = .success ↔
      ((store.Archive accountID sa).2 = .ok true ∧
       (tokenStore.revokeAll accountID st).2 = .ok ())) ∧
    ((AccountArchiver store tokenStore accountID sa st).result = .success →
      (AccountArchiver store tokenStore accountID sa st).ops =
        [.archiveCall accountID, .logoutCall accountID]) ∧
    (∀ e, (store.Archive accountID sa).2 = .ok true →
      (tokenStore.revokeAll accountID st).2 = .error e →
      (AccountArchiver store tokenStore accountID sa st).result = .revocationErr e ∧
      (AccountArchiver store tokenStore accountID sa st).accountState =
        (store.Archive accountID sa).1 ∧
      (AccountArchiver store tokenStore accountID sa st).ops =
        [.archiveCall accountID, .logoutCall accountID]) := by
  cases h1 : (store.Archive accountID sa).2 with
  | error e => simp [AccountArchiver, h1]
  | ok affected =>
    cases affected with
    | false => simp [AccountArchiver, h1]
    | true =>
      cases h2 : (tokenStore.revokeAll accountID st).2 with
      | error e2 => simp [AccountArchiver, LogoutAccount, h1, h2]
      | ok u => simp [AccountArchiver, LogoutAccount, h1, h2]

/-- Witness for C5 at a concrete pair of stores where the archive affects a
row and the revocation fails. -/
theorem accountArchiver_success_iff_both_succeed_witness :
    (AccountArchiver storeAffects tokensFail 7 0 5).result =
      .revocationErr "redis: connection refused" ∧
    (AccountArchiver storeAffects tokensFail 7 0 5).accountState = 1 ∧
    (AccountArchiver storeAffects tokensFail 7 0 5).ops =
      [.archiveCall 7, .logoutCall 7] := by
  exact (accountArchiver_success_iff_both_succeed storeAffects tokensFail 7 0 5).2.2
    "redis: connection refused" rfl rfl

/-- C3, counterexample: with SECRET_KEY_BASE_FILE naming an unreadable file
while SECRET_KEY_BASE is set, the step returns an error even though the
direct source yields a base — refuting both the claimed fallback on a failed
read and the claimed error-iff-neither-source-yields equivalence. -/
theorem secretKeyBase_unreadable_file_beats_direct_base :
    cexEnv "SECRET_KEY_BASE_FILE" = some "/run/secrets/key_base" ∧
    cexFS "/run/secrets/key_base" = none ∧
    cexEnv "SECRET_KEY_BASE" = some "itsasecret" ∧
    isFail (secretKeyBaseConfigurer cexEnv cexFS emptyConfig) = true :=
  ⟨rfl, rfl, rfl, rfl⟩

/-- Scenario equation: both secret-base variables absent. -/
theorem secretKeyBase_eq_missing (env : Env) (fs : FS) (c : Config)
    (h1 : env "SECRET_KEY_BASE_FILE" = none) (h2 : env "SECRET_KEY_BASE" = none) :
    secretKeyBaseConfigurer env fs c = .fail (.missingEnvVar "SECRET_KEY_BASE") := by
  simp [secretKeyBaseConfigurer, requireEnv, h1, h2]

/-- Scenario equation: indirection variable absent, direct variable present. -/
theorem secretKeyBase_eq_fallback (env : Env) (fs : FS) (c : Config) (v : String)
    (h1 : env "SECRET_KEY_BASE_FILE" = none) (h2 : env "SECRET_KEY_BASE" = some v) :
    secretKeyBaseConfigurer env fs c =
      .ok { c with
            SessionSigningKey := derive (strBytes v) "session-key-salt"
            ResetSigningKey := derive (strBytes v) "password-reset-token-key-salt"
            PasswordlessTokenSigningKey := derive (strBytes v) "passwordless-token-key-salt"
            DBEncryptionKey := (derive (strBytes v) "db-encryption-key-salt").take 32
            OAuthSigningKey := derive (strBytes v) "oauth-key-salt" } := by
  simp [secretKeyBaseConfigurer, requireEnv, h1, h2]

/-- Scenario equation: indirection variable present, named file unreadable. -/
theorem secretKeyBase_eq_ioError (env : Env) (fs : FS) (c : Config) (f : String)
    (h1 : env "SECRET_KEY_BASE_FILE" = some f) (h3 : fs f = none) :
    secretKeyBaseConfigurer env fs c = .fail (.ioError f) := by
  simp [secretKeyBaseConfigurer, requireEnv, h1, h3]

/-- Scenario equation: indirection variable present, named file readable. -/
theorem secretKeyBase_eq_file (env : Env) (fs : FS) (c : Config) (f v : String)
    (h1 : env "SECRET_KEY_BASE_FILE" = some f) (h3 : fs f = some v) :
    secretKeyBaseConfigurer env fs c =
      .ok { c with
            SessionSigningKey := derive (strBytes v) "session-key-salt"
            ResetSigningKey := derive (strBytes v) "password-reset-token-key-salt"
            PasswordlessTokenSigningKey := derive (strBytes v) "passwordless-token-key-salt"
            DBEncryptionKey := (derive (strBytes v) "db-encryption-key-salt").take 32
            OAuthSigningKey := derive (strBytes v) "oauth-key-salt" } := by
  simp [secretKeyBaseConfigurer, requireEnv, h1, h3]

/-- C3, amended: the secret-base configurer falls back to SECRET_KEY_BASE only
when the indirection variable itself is absent; it errors exactly when both
variables are absent or the indirection names an unreadable file; on success
it sets exactly the five key fields, each derived from the obtained base with
its fixed label, the database-encryption key truncated to 32 bytes. -/
theorem secretKeyBase_characterization (env : Env) (fs : FS) (c : Config) :
    match secretKeyBaseConfigurer env fs c with
    | .fail _ =>
        (env "SECRET_KEY_BASE_FILE" = none ∧ env "SECRET_KEY_BASE" = none) ∨
        (∃ fileName, env "SECRET_KEY_BASE_FILE" = some fileName ∧ fs fileName = none)
    | .ok c' =>
        ∃ val,
          ((∃ fileName, env "SECRET_KEY_BASE_FILE" = some fileName ∧ fs fileName = some val) ∨
           (env "SECRET_KEY_BASE_FILE" = none ∧ env "SECRET_KEY_BASE" = some val)) ∧
          c' = { c with
                 SessionSigningKey := derive (strBytes val) "session-key-salt"
                 ResetSigningKey := derive (strBytes val) "password-reset-token-key-salt"
                 PasswordlessTokenSigningKey := derive (strBytes val) "passwordless-token-key-salt"
                 DBEncryptionKey := (derive (strBytes val) "db-encryption-key-salt").take 32
                 OAuthSigningKey := derive (strBytes val) "oauth-key-salt" }
    | .panics => False := by
  cases h1 : env "SECRET_KEY_BASE_FILE" with
  | none =>
    cases h2 : env "SECRET_KEY_BASE" with
    | none =>
      rw [secretKeyBase_eq_missing env fs c h1 h2]
      exact Or.inl ⟨rfl, rfl⟩
    | some v =>
      rw [secretKeyBase_eq_fallback env fs c v h1 h2]
      exact ⟨v, Or.inr ⟨rfl, rfl⟩, rfl⟩
  | some f =>
    cases h3 : fs f with
    | none =>
      rw [secretKeyBase_eq_ioError env fs c f h1 h3]
      exact Or.inr ⟨f, rfl, h3⟩
    | some v =>
      rw [secretKeyBase_eq_file env fs c f v h1 h3]
      exact ⟨v, Or.inl ⟨f, rfl, h3⟩, rfl⟩

/-- C6: for every secret base the truncated database-encryption derivation is
exactly 32 bytes, and whenever the secret-base configurer succeeds the
DBEncryptionKey field of the produced record is exactly 32 bytes. -/
theorem dbEncryptionKey_always_32_bytes :
    (∀ base : List Nat, ((derive base "db-encryption-key-salt").take 32).length = 32) ∧
    (∀ (env : Env) (fs : FS) (c : Config),
      onOk (secretKeyBaseConfigurer env fs c) fun c' => c'.DBEncryptionKey.length = 32) := by
  have hlen : ∀ base : List Nat, ((derive base "db-encryption-key-salt").take 32).length = 32 :=
    fun base => by simp [List.length_take, derive_length]
  refine ⟨hlen, fun env fs c => ?_⟩
  cases h1 : env "SECRET_KEY_BASE_FILE" with
  | none =>
    cases h2 : env "SECRET_KEY_BASE" with
    | none => rw [secretKeyBase_eq_missing env fs c h1 h2]; trivial
    | some v =>
      rw [secretKeyBase_eq_fallback env fs c v h1 h2]
      simpa [onOk] using hlen (strBytes v)
  | some f =>
    cases h3 : fs f with
    | none => rw [secretKeyBase_eq_ioError env fs c f h1 h3]; trivial
    | some v =>
      rw [secretKeyBase_eq_file env fs c f v h1 h3]
      simpa [onOk] using hlen (strBytes v)

/-- C10: derive returns exactly 128 bytes for every base and label, and
whenever the secret-base configurer succeeds the four untruncated key fields
of the produced record are each exactly 128 bytes, in particular nonempty. -/
theorem derive_128_and_signing_key_fields :
    (∀ (base : List Nat) (label : String), (derive base label).length = 128) ∧
    (∀ (env : Env) (fs : FS) (c : Config),
      onOk (secretKeyBaseConfigurer env fs c) fun c' =>
        c'.SessionSigningKey.length = 128 ∧ c'.ResetSigningKey.length = 128 ∧
        c'.PasswordlessTokenSigningKey.length = 128 ∧ c'.OAuthSigningKey.length = 128 ∧
        c'.SessionSigningKey ≠ [] ∧ c'.ResetSigningKey ≠ [] ∧
        c'.PasswordlessTokenSigningKey ≠ [] ∧ c'.OAuthSigningKey ≠ []) := by
  have hfields : ∀ v : String,
      (derive (strBytes v) "session-key-salt").length = 128 ∧
      (derive (strBytes v) "password-reset-token-key-salt").length = 128 ∧
      (derive (strBytes v) "passwordless-token-key-salt").length = 128 ∧
      (derive (strBytes v) "oauth-key-salt").length = 128 ∧
      derive (strBytes v) "session-key-salt" ≠ [] ∧
      derive (strBytes v) "password-reset-token-key-salt" ≠ [] ∧
      derive (strBytes v) "passwordless-token-key-salt" ≠ [] ∧
      derive (strBytes v) "oauth-key-salt" ≠ [] := by
    intro v
    exact ⟨derive_length _ _, derive_length _ _, derive_length _ _, derive_length _ _,
      derive_ne_nil _ _, derive_ne_nil _ _, derive_ne_nil _ _, derive_ne_nil _ _⟩
  refine ⟨fun base label => derive_length base label, fun env fs c => ?_⟩
  cases h1 : env "SECRET_KEY_BASE_FILE" with
  | none =>
    cases h2 : env "SECRET_KEY_BASE" with
    | none => rw [secretKeyBase_eq_missing env fs c h1 h2]; trivial
    | some v =>
      rw [secretKeyBase_eq_fallback env fs c v h1 h2]
      simpa [onOk] using hfields v
  | some f =>
    cases h3 : fs f with
    | none => rw [secretKeyBase_eq_ioError env fs c f h1 h3]; trivial
    | some v =>
      rw [secretKeyBase_eq_file env fs c f v h1 h3]
      simpa [onOk] using hfields v

end AuthN
